import Mathlib

/-!
# Verification of the es-wait poll-wait-timeout supervisor

A shallow embedding of the core of `es_wait` (`src/es_wait/_base.py` plus the
pieces of `snapshot.py`, `ilm.py`, `utils.py` and `exceptions.py` the claims
touch), with theorems checking the natural-language specification against it.

Modelling conventions:
* Durations and timestamps are rationals (`ℚ`), modelling Python floats with
  exact arithmetic.  The clock is idealised: a `check()` call and the branch
  tests take zero time, and time advances only during `sleep(pause)`, by
  exactly `pause`.  Under this clock, `TimeTracker.elapsed` at the start of
  loop iteration `n` is `n * pause`.
* Python exceptions become the inductive `PyExc`.  Class membership tests of
  `except` clauses become boolean discriminators that encode the actual class
  hierarchy of `exceptions.py` (`ExceptionCount`, `EsWaitFatal` and
  `IlmWaitError` are subclasses of `EsWaitException`; `EsWaitTimeout` and the
  elasticsearch transport exceptions are not).
* The `Waiter` object is split into the immutable configuration
  (`WaitConfig`: `pause`, `timeout`, `max_exceptions`, `waitstr`,
  `do_health_report`, none of which the code ever writes after `__init__`)
  and the mutable exception-accumulator part (`AccState`: `exceptions_raised`
  and `_exceptions`), which `check()` implementations update.
* A condition strategy is a state machine: a step function from its private
  state and the accumulator to a `CheckOutcome` (a returned `bool` or a
  raised exception, plus the updated states).  This is the supervisor's view
  of the duck-typed `check()` method.
* The unbounded `while True:` loop becomes the fuel-indexed `wait`; running
  out of fuel is the `outOfFuel` result, and theorems supply enough fuel.
* Logging calls are effects with no influence on control flow and are dropped,
  except where a claim is about them: `log_completion` is modelled by the log
  level it selects, and `TimeTracker.should_log` is modelled directly.
-/

namespace EsWait

/-- Python exceptions relevant to es-wait, as a closed syntax.  The
constructors carry the arguments the Python classes store
(`exceptions.py`): `message`, an `errors` tuple for the `EsWaitException`
family, `elapsed`/`timeout` for the timing exceptions, `count` for
`ExceptionCount`.  `transportErr`/`notFoundErr` stand for
`elastic_transport.TransportError` and `elasticsearch8.NotFoundError`;
`valueErr`/`otherErr` for `ValueError` and any remaining Python exception. -/
inductive PyExc where
  | esWaitExc (message : String) (errors : List PyExc)
  | esWaitFatal (message : String) (elapsed : ℚ) (errors : List PyExc)
  | esWaitTimeout (message : String) (elapsed : ℚ) (timeout : ℚ)
  | exceptionCount (message : String) (count : Nat) (errors : List PyExc)
  | ilmWaitError (message : String) (errors : List PyExc)
  | transportErr (message : String)
  | notFoundErr (message : String)
  | valueErr (message : String)
  | otherErr (message : String)

/-- `isinstance(e, ExceptionCount)`: the class test done by the first
`except` clause of `Waiter.wait`. -/
def PyExc.isExceptionCount : PyExc → Bool
  | .exceptionCount _ _ _ => true
  | _ => false

/-- `isinstance(e, (EsWaitException, IlmWaitError))`: the class test done by
the second `except` clause of `Waiter.wait`.  Per `exceptions.py`,
`EsWaitFatal`, `ExceptionCount` and `IlmWaitError` all subclass
`EsWaitException`; `EsWaitTimeout` and the transport errors do not. -/
def PyExc.isEsWaitExceptionCls : PyExc → Bool
  | .esWaitExc _ _ => true
  | .esWaitFatal _ _ _ => true
  | .exceptionCount _ _ _ => true
  | .ilmWaitError _ _ => true
  | _ => false

/-- `isinstance(e, TransportError)`: the class test of the `except` clause
guarding the health report in `Waiter.wait`. -/
def PyExc.isTransportError : PyExc → Bool
  | .transportErr _ => true
  | _ => false

/-- `isinstance(e, EsWaitTimeout)`. -/
def PyExc.isEsWaitTimeout : PyExc → Bool
  | .esWaitTimeout _ _ _ => true
  | _ => false

/-- `isinstance(e, EsWaitFatal)`. -/
def PyExc.isEsWaitFatal : PyExc → Bool
  | .esWaitFatal _ _ _ => true
  | _ => false

/-- Model of `utils.prettystr`, the `pprint.pformat` wrapper: a pure
formatting helper whose exact text no claim depends on.  Like the original it
prefixes a newline to a rendering of its argument; we render just the stored
message. -/
def prettystr (e : PyExc) : String :=
  let msg := match e with
    | .esWaitExc m _ => m
    | .esWaitFatal m _ _ => m
    | .esWaitTimeout m _ _ => m
    | .exceptionCount m _ _ => m
    | .ilmWaitError m _ => m
    | .transportErr m => m
    | .notFoundErr m => m
    | .valueErr m => m
    | .otherErr m => m
  "\n" ++ msg

/-- The immutable configuration slice of a `Waiter` (`_base.py` ctor args
plus `waitstr` and `do_health_report`, which are fixed before `wait()` runs
and never written by the loop). -/
structure WaitConfig where
  pause : ℚ
  timeout : ℚ
  max_exceptions : Nat
  waitstr : String
  do_health_report : Bool

/-- The mutable exception-accumulator slice of a `Waiter`:
`self.exceptions_raised` and `self._exceptions`. -/
structure AccState where
  exceptions_raised : Nat
  exceptions : List PyExc

/-- `Waiter.exception_count_msg`:
`f'{self.exceptions_raised} exceptions raised out of {self.max_exceptions} allowed'`. -/
def exception_count_msg (cfg : WaitConfig) (a : AccState) : String :=
  toString a.exceptions_raised ++ " exceptions raised out of " ++
    toString cfg.max_exceptions ++ " allowed"

/-- `Waiter.add_exception`: `self._exceptions.append(value)` — a Python list
`append`, i.e. insertion at the END of the list. -/
def add_exception (a : AccState) (value : PyExc) : AccState :=
  { a with exceptions := a.exceptions ++ [value] }

/-- `Waiter.too_many_exceptions`: raises `ExceptionCount` (here: returns
`some` of it) when `self.exceptions_raised >= self.max_exceptions`, and is a
no-op (`none`) otherwise.  The exception carries the message, the count and
`tuple(self.exceptions)`. -/
def too_many_exceptions (cfg : WaitConfig) (a : AccState) : Option PyExc :=
  if cfg.max_exceptions ≤ a.exceptions_raised then
    some (.exceptionCount
      ("Check " ++ cfg.waitstr ++ " has failed, " ++ exception_count_msg cfg a)
      a.exceptions_raised a.exceptions)
  else
    none

/-- Python `int(x)` on a float: truncation toward zero. -/
def pyInt (q : ℚ) : ℤ :=
  if 0 ≤ q then ⌊q⌋ else ⌈q⌉

/-- `TimeTracker.should_log` (`_base.py`): `False` when `int(self.elapsed)`
is `0`, else `int(self.elapsed) % self.log_frequency == 0`.  `log_frequency`
is a Python `int`; for a positive modulus Python `%` agrees with `Int.emod`. -/
def should_log (log_frequency : ℤ) (elapsed : ℚ) : Bool :=
  if pyInt elapsed = 0 then false
  else pyInt elapsed % log_frequency = 0

/-- What one `check()` call does, from the supervisor's side: return a bool
or raise, in both cases leaving the strategy state and the accumulator in a
possibly updated state. -/
inductive CheckOutcome (σ : Type) where
  | ret (b : Bool) (st : σ) (a : AccState)
  | exc (e : PyExc) (st : σ) (a : AccState)

/-- A condition strategy: the supervisor's view of the overridden `check()`
method, as a step function over the strategy's private state `σ` and the
accumulator it shares with the waiter. -/
def Strategy (σ : Type) : Type :=
  σ → AccState → CheckOutcome σ

/-- Outcome of running `Waiter.wait`: normal return, a raised exception, or
fuel exhaustion of the model (the Python loop is unbounded).  Both
terminating constructors record how many `sleep(pause)` calls were made. -/
inductive WaitResult where
  | success (elapsed : ℚ) (sleeps : Nat)
  | raised (e : PyExc) (sleeps : Nat)
  | outOfFuel

/-- The timeout message of `Waiter.wait`:
`f'The wait {self.waitstr} failed to complete in the timeout period of {self.timeout} seconds'`. -/
def timeoutMsg (cfg : WaitConfig) : String :=
  "The wait " ++ cfg.waitstr ++ " failed to complete in the timeout period of "
    ++ toString cfg.timeout ++ " seconds"

/-- The `if not success:` tail of `Waiter.wait`: build the `EsWaitTimeout`,
and if `do_health_report` run the health-report block first.  `healthFetch`
models that block's outcome: `none` when
`health_report(self.client.health_report())` completes (possibly logging),
`some e` when it raises `e`.  Only a `TransportError` is caught there; any
other exception propagates out of `wait()` INSTEAD of the timeout. -/
def timeoutRaise (cfg : WaitConfig) (elapsed : ℚ) (healthFetch : Option PyExc)
    (sleeps : Nat) : WaitResult :=
  let texc : PyExc := .esWaitTimeout (timeoutMsg cfg) elapsed cfg.timeout
  if cfg.do_health_report then
    match healthFetch with
    | some e => if e.isTransportError then .raised texc sleeps else .raised e sleeps
    | none => .raised texc sleeps
  else
    .raised texc sleeps

/-- The `while True:` loop of `Waiter.wait`, fuel-indexed.  Per iteration:
call `check()`; an `ExceptionCount` becomes `EsWaitFatal(exception_count_msg,
elapsed, tuple(self.exceptions))`; an `EsWaitException`/`IlmWaitError`
becomes `EsWaitFatal('An error occurred: ' + prettystr(err), elapsed,
tuple(self.exceptions))`; any other raised exception propagates unwrapped.
`True` returns; on `False`, if `timeout != -1 and elapsed >= timeout` the
loop breaks into the timeout tail, else (after the purely observational
`should_log` progress message) it sleeps `pause` and repeats. -/
def wait (cfg : WaitConfig) (chk : Strategy σ) (healthFetch : Option PyExc) :
    Nat → σ → AccState → ℚ → Nat → WaitResult
  | 0, _, _, _, _ => .outOfFuel
  | fuel + 1, st, a, elapsed, sleeps =>
    match chk st a with
    | .exc e _ a' =>
      if e.isExceptionCount then
        .raised (.esWaitFatal (exception_count_msg cfg a') elapsed a'.exceptions) sleeps
      else if e.isEsWaitExceptionCls then
        .raised (.esWaitFatal ("An error occurred: " ++ prettystr e) elapsed
          a'.exceptions) sleeps
      else
        .raised e sleeps
    | .ret true _ _ => .success elapsed sleeps
    | .ret false st' a' =>
      if cfg.timeout ≠ -1 ∧ cfg.timeout ≤ elapsed then
        timeoutRaise cfg elapsed healthFetch sleeps
      else
        wait cfg chk healthFetch fuel st' a' (elapsed + cfg.pause) (sleeps + 1)

/-- The base `Waiter.check`, which always returns `False` and touches no
state — the strategy used when nothing overrides `check`. -/
def baseCheck : Strategy Unit :=
  fun _ a => .ret false () a

/-- A strategy whose `check()` raises a fixed exception on every call, the
supervisor-side shape of a fatal strategy error. -/
def raiseCheck (e : PyExc) : Strategy Unit :=
  fun _ a => .exc e () a

/-- A strategy that starts its `check()` with `self.too_many_exceptions()`
and otherwise returns `False`, making no remote call — the minimal shape of
every concrete strategy's accumulator guard. -/
def guardedCheck (cfg : WaitConfig) : Strategy Unit :=
  fun _ a =>
    match too_many_exceptions cfg a with
    | some e => .exc e () a
    | none => .ret false () a

/-! ## Snapshot waiter (`snapshot.py`) -/

/-- A log level chosen by a logging call (the observable part of
`log_completion`). -/
inductive LogLevel where
  | info
  | error
  | warning

/-- `Snapshot.log_completion`, modelled by the log level it selects:
`statemap = {'SUCCESS': logger.info, 'FAILED': logger.error}` with
`logger.warning` as the `get` default. -/
def log_completion_level (state : String) : LogLevel :=
  if state = "SUCCESS" then .info
  else if state = "FAILED" then .error
  else .warning

/-- The body of `Snapshot.check` after the `too_many_exceptions()` guard.
`fetch` models `self.snapstate['snapshots'][0]['state']`: `Except.ok state`
when the lookup succeeds, `Except.error err` when `snapstate` raises the
`ValueError` `err`.  On the error the counter is incremented and the error
appended (`add_exception`), `state = 'UNDEFINED'` and the result is `False`;
otherwise the result is `state != 'IN_PROGRESS'`, and `log_completion` runs
exactly when the result is `True`.  Returns (retval, accumulator, the log
level used, if any). -/
def snapshot_check_body (fetch : Except PyExc String) (a : AccState) :
    Bool × AccState × Option LogLevel :=
  match fetch with
  | .error err =>
    (false, add_exception { a with exceptions_raised := a.exceptions_raised + 1 } err,
      none)
  | .ok state =>
    let retval := state ≠ "IN_PROGRESS"
    (retval, a, if retval then some (log_completion_level state) else none)

/-- `Snapshot.check` as a strategy: `self.too_many_exceptions()` first, then
the body.  The strategy state is the stream (by call index) of `snapstate`
outcomes the remote side will produce. -/
def snapshotCheck (cfg : WaitConfig) (fetches : Nat → Except PyExc String) :
    Strategy Nat :=
  fun n a =>
    match too_many_exceptions cfg a with
    | some e => .exc e n a
    | none =>
      let r := snapshot_check_body (fetches n) a
      .ret r.1 (n + 1) r.2.1

/-! ## ILM waiters (`ilm.py`) -/

/-- The slice of one index's `ilm.explain_lifecycle` answer the code reads.
A `DotMap` lookup of a missing key is falsy, so missing `phase`/`action`/
`step` entries are the empty string. -/
structure IlmExplain where
  phase : String
  action : String
  step : String

/-- `IndexLifecycle.get_explain_data`: the remote call either succeeds,
raises `NotFoundError`, or raises something else.  A `NotFoundError` is
logged and re-raised AS IS (`raise exc`); any other exception is wrapped
into `IlmWaitError('Unable to get ILM information for index {name}. ...')`.
The argument models the remote outcome; `none` in the success position
models an empty explain body for the index. -/
inductive ExplainApi where
  | ok (data : Option IlmExplain)
  | notFound (message : String)
  | otherFailure (e : PyExc)

def get_explain_data (name : String) (api : ExplainApi) :
    Except PyExc (Option IlmExplain) :=
  match api with
  | .ok data => .ok data
  | .notFound m => .error (.notFoundErr m)
  | .otherFailure e =>
    .error (.ilmWaitError
      ("Unable to get ILM information for index " ++ name ++ ". Exception: "
        ++ prettystr e) [])

/-- `IlmPhase.has_explain`: `False` with `self.exceptions_raised += 1` when
the explain data is falsy, likewise when its `phase` entry is falsy, `True`
otherwise.  Note it increments the counter WITHOUT `add_exception`. -/
def has_explain (explain : Option IlmExplain) (a : AccState) : Bool × AccState :=
  match explain with
  | none => (false, { a with exceptions_raised := a.exceptions_raised + 1 })
  | some ex =>
    if ex.phase = "" then
      (false, { a with exceptions_raised := a.exceptions_raised + 1 })
    else
      (true, a)

/-- The per-instance mutable state of `IlmPhase` beyond the accumulator. -/
structure IlmPhaseState where
  stuck_count : Nat
  advanced : Bool

/-- `IlmPhase.phase_stuck`: when `stuck_count >= max_stuck_count`, raise
`IlmWaitError` if already `advanced`, else trigger a phase advance and reset
`advanced := True`, `stuck_count := 0`, `exceptions_raised := 0` (leaving
`self._exceptions` untouched) and return `True`; below the threshold return
`False`. -/
def phase_stuck (phase : String) (max_stuck_count : Nat) (ps : IlmPhaseState)
    (a : AccState) : Except PyExc (Bool × IlmPhaseState × AccState) :=
  if max_stuck_count ≤ ps.stuck_count then
    if ps.advanced then
      .error (.ilmWaitError
        ("ILM phase " ++ phase ++ " was stuck, but was advanced. Even after "
          ++ "advancing, the phase is still stuck.") [])
    else
      .ok (true, { stuck_count := 0, advanced := true },
        { a with exceptions_raised := 0 })
  else
    .ok (false, ps, a)

/-- The transient branch of `IlmStep.check`: when
`self.client.indices.exists(index=self.name)` is false, increment the
counter and `add_exception(IlmWaitError('Index {name} not found.'))`, then
return `False`. -/
def ilm_step_check_missing (name : String) (a : AccState) : Bool × AccState :=
  (false,
    add_exception { a with exceptions_raised := a.exceptions_raised + 1 }
      (.ilmWaitError ("Index " ++ name ++ " not found.") []))

/-- Whether a wait outcome is "`wait()` raised an `EsWaitTimeout`". -/
def isTimeoutResult : WaitResult → Bool
  | .raised e _ => e.isEsWaitTimeout
  | _ => false

/-! ## General lemmas -/

/-- When the health-report block completes without raising (`healthFetch =
none`), the timeout tail raises the `EsWaitTimeout` itself, whether or not
diagnostics were requested. -/
theorem timeoutRaise_none (cfg : WaitConfig) (e : ℚ) (s : Nat) :
    timeoutRaise cfg e none s
      = .raised (.esWaitTimeout (timeoutMsg cfg) e cfg.timeout) s := by
  cases h : cfg.do_health_report <;> simp [timeoutRaise, h]

/-- The timeout tail never sleeps: whatever the health-report block does, it
produces a `raised` outcome with the sleep count it was given. -/
theorem timeoutRaise_no_sleep (cfg : WaitConfig) (e : ℚ) (hf : Option PyExc)
    (s : Nat) : ∃ ex, timeoutRaise cfg e hf s = .raised ex s := by
  unfold timeoutRaise
  cases h : cfg.do_health_report with
  | false => exact ⟨.esWaitTimeout (timeoutMsg cfg) e cfg.timeout, by simp⟩
  | true =>
    cases hf with
    | none => exact ⟨.esWaitTimeout (timeoutMsg cfg) e cfg.timeout, by simp⟩
    | some ex =>
      cases htr : ex.isTransportError with
      | false => exact ⟨ex, by simp [htr]⟩
      | true => exact ⟨.esWaitTimeout (timeoutMsg cfg) e cfg.timeout, by simp [htr]⟩

/-- One unfolding of the loop on a `False` check result. -/
theorem wait_succ_eq (cfg : WaitConfig) {σ : Type} (chk : Strategy σ)
    (hf : Option PyExc) (fuel : Nat) (st st' : σ) (a a' : AccState) (e : ℚ)
    (s : Nat) (h : chk st a = .ret false st' a') :
    wait cfg chk hf (fuel + 1) st a e s
      = if cfg.timeout ≠ -1 ∧ cfg.timeout ≤ e then timeoutRaise cfg e hf s
        else wait cfg chk hf fuel st' a' (e + cfg.pause) (s + 1) := by
  simp [wait, h]

/-- Running the loop on a strategy that keeps returning `False`: starting at
elapsed `e`, if the timeout is not yet crossed during the first `n`
iterations and is crossed at iteration `n`, the run raises the
`EsWaitTimeout` with elapsed `e + n * pause` after exactly `n` sleeps. -/
theorem wait_false_run (cfg : WaitConfig) {σ : Type} (chk : Strategy σ)
    (hchk : ∀ st a, ∃ st' a', chk st a = .ret false st' a')
    (hT1 : cfg.timeout ≠ -1) :
    ∀ (n : Nat) (st : σ) (a : AccState) (e : ℚ) (s : Nat),
      (∀ k : Nat, k < n → e + (k : ℚ) * cfg.pause < cfg.timeout) →
      cfg.timeout ≤ e + (n : ℚ) * cfg.pause →
      wait cfg chk none (n + 1) st a e s
        = .raised (.esWaitTimeout (timeoutMsg cfg) (e + (n : ℚ) * cfg.pause)
            cfg.timeout) (s + n) := by
  intro n
  induction n with
  | zero =>
    intro st a e s _ hge
    obtain ⟨st', a', hc⟩ := hchk st a
    have hge' : cfg.timeout ≤ e := by simpa using hge
    rw [wait_succ_eq cfg chk none 0 st st' a a' e s hc,
      if_pos ⟨hT1, hge'⟩, timeoutRaise_none]
    norm_num
  | succ n ih =>
    intro st a e s hlt hge
    obtain ⟨st', a', hc⟩ := hchk st a
    have h0 : e < cfg.timeout := by
      have := hlt 0 (Nat.succ_pos n)
      simpa using this
    rw [wait_succ_eq cfg chk none (n + 1) st st' a a' e s hc,
      if_neg (fun hcon => absurd hcon.2 (not_le.mpr h0))]
    rw [ih st' a' (e + cfg.pause) (s + 1) ?hlt ?hge]
    · have h1 : e + cfg.pause + (n : ℚ) * cfg.pause
          = e + ((n + 1 : Nat) : ℚ) * cfg.pause := by
        push_cast
        ring
      have h2 : s + 1 + n = s + (n + 1) := by omega
      rw [h1, h2]
    case hlt =>
      intro k hk
      have := hlt (k + 1) (by omega)
      push_cast at this ⊢
      linarith
    case hge =>
      push_cast at hge ⊢
      linarith

/-! ## Claim theorems -/

/-- Claim C7, counterexample: at `elapsed = 5.5` seconds with
`log_frequency = 5`, `should_log` is `True` although `5.5` is non-zero but
NOT a whole multiple of `5` — the code truncates `elapsed` with `int()`
before the multiplicity test, so the claim as stated fails. -/
theorem should_log_truncation_cex :
    should_log 5 (11 / 2) = true
    ∧ ¬ (∃ k : ℤ, (11 / 2 : ℚ) = k * 5)
    ∧ (11 / 2 : ℚ) ≠ 0 := by
  refine ⟨?_, ?_, by norm_num⟩
  · have h : pyInt (11 / 2) = 5 := by
      unfold pyInt
      rw [if_pos (by norm_num)]
      norm_num
    unfold should_log
    rw [h]
    norm_num
  · rintro ⟨k, hk⟩
    have h10 : (11 : ℚ) = k * 10 := by linarith
    have h10' : (11 : ℤ) = k * 10 := by exact_mod_cast h10
    omega

/-- Claim C7, amended: for every `log_frequency > 0`, `should_log` is true
iff the TRUNCATED whole-second part `int(elapsed)` is non-zero and a whole
multiple of `log_frequency`; in particular it is false at `elapsed == 0`. -/
theorem should_log_iff (f : ℤ) (_hf : 0 < f) (e : ℚ) :
    (should_log f e = true ↔ (pyInt e ≠ 0 ∧ f ∣ pyInt e))
    ∧ should_log f 0 = false := by
  constructor
  · unfold should_log
    by_cases h : pyInt e = 0
    · simp [h]
    · simp only [h, if_false, ne_eq, not_false_iff, true_and, decide_eq_true_eq]
      exact Int.dvd_iff_emod_eq_zero.symm
  · simp [should_log, pyInt]

/-- Witness for `should_log_iff` at `f = 5`, `e = 10`. -/
theorem should_log_iff_witness :
    (should_log 5 10 = true ↔ (pyInt 10 ≠ 0 ∧ 5 ∣ pyInt 10))
    ∧ should_log 5 0 = false :=
  should_log_iff 5 (by norm_num) 10

/-- Claim C9: `add_exception` is `self._exceptions.append(value)`, a Python
list append, so after recording `e1` then `e2` the history is `[e1, e2]` —
OLDEST first, the most recent entry at the BACK, not at the front as the
claim (and the `EsWaitException` docstring) state. -/
theorem add_exception_appends_at_back :
    (add_exception (add_exception ⟨0, []⟩ (.valueErr "e1")) (.valueErr "e2")).exceptions
      = [PyExc.valueErr "e1", PyExc.valueErr "e2"]
    ∧ [PyExc.valueErr "e1", PyExc.valueErr "e2"]
        ≠ [PyExc.valueErr "e2", PyExc.valueErr "e1"] := by
  refine ⟨rfl, ?_⟩
  intro h
  injection h with h1 _
  injection h1 with h2
  exact absurd h2 (by decide)

/-- Claim C10: for a fetched snapshot state other than `IN_PROGRESS`
(`FAILED` and `PARTIAL` included) `Snapshot.check` returns `True` and
`wait()` returns successfully; `IN_PROGRESS` yields `False`; the terminal
state only picks the completion log level — `info` for `SUCCESS`, `error`
for `FAILED`, `warning` for anything else. -/
theorem snapshot_check_state_mapping (cfg : WaitConfig) (a : AccState)
    (s : String) (fetches : Nat → Except PyExc String) (fuel : Nat)
    (hs : s ≠ "IN_PROGRESS") (hcnt : a.exceptions_raised < cfg.max_exceptions)
    (hfetch : fetches 0 = .ok s) :
    (snapshot_check_body (.ok s) a).1 = true
    ∧ (snapshot_check_body (.ok "IN_PROGRESS") a).1 = false
    ∧ (snapshot_check_body (.ok s) a).2.2 = some (log_completion_level s)
    ∧ log_completion_level "SUCCESS" = .info
    ∧ log_completion_level "FAILED" = .error
    ∧ (s ≠ "SUCCESS" → s ≠ "FAILED" → log_completion_level s = .warning)
    ∧ wait cfg (snapshotCheck cfg fetches) none (fuel + 1) 0 a 0 0
        = .success 0 0 := by
  refine ⟨by simp [snapshot_check_body, hs], by simp [snapshot_check_body], ?_,
    rfl, rfl, ?_, ?_⟩
  · simp [snapshot_check_body, hs]
  · intro h1 h2
    simp [log_completion_level, h1, h2]
  · have hguard : too_many_exceptions cfg a = none := by
      unfold too_many_exceptions
      rw [if_neg (by omega)]
    simp [wait, snapshotCheck, hguard, hfetch, snapshot_check_body, hs]

/-- Witness for `snapshot_check_state_mapping` at state `PARTIAL`. -/
theorem snapshot_check_state_mapping_witness :
    (snapshot_check_body (.ok "PARTIAL") ⟨0, []⟩).1 = true
    ∧ (snapshot_check_body (.ok "IN_PROGRESS") ⟨0, []⟩).1 = false
    ∧ (snapshot_check_body (.ok "PARTIAL") ⟨0, []⟩).2.2
        = some (log_completion_level "PARTIAL")
    ∧ log_completion_level "SUCCESS" = .info
    ∧ log_completion_level "FAILED" = .error
    ∧ ("PARTIAL" ≠ "SUCCESS" → "PARTIAL" ≠ "FAILED" →
        log_completion_level "PARTIAL" = .warning)
    ∧ wait ⟨9, 7200, 10, "for snapshot snap to complete", false⟩
        (snapshotCheck ⟨9, 7200, 10, "for snapshot snap to complete", false⟩
          (fun _ => .ok "PARTIAL")) none 1 0 ⟨0, []⟩ 0 0 = .success 0 0 :=
  snapshot_check_state_mapping ⟨9, 7200, 10, "for snapshot snap to complete", false⟩
    ⟨0, []⟩ "PARTIAL" (fun _ => .ok "PARTIAL") 0 (by decide) (by decide) rfl

/-- Claim C8, counterexample: starting from a synchronized accumulator
(`count = 0 = length(history)`), one `IlmPhase.has_explain` call on missing
explain data increments `exceptions_raised` without touching `_exceptions`,
leaving `count = 1 ≠ 0 = length(history)`. -/
theorem exception_counter_sync_cex :
    (⟨0, []⟩ : AccState).exceptions_raised
      = (⟨0, []⟩ : AccState).exceptions.length
    ∧ (has_explain none ⟨0, []⟩).2.exceptions_raised
        ≠ (has_explain none ⟨0, []⟩).2.exceptions.length := by
  refine ⟨rfl, ?_⟩
  simp [has_explain]

/-- Claim C8, amended: the operations that record a failure via
`add_exception` WITH a paired counter increment (`Snapshot.check`'s error
path, `IlmStep.check`'s missing-index path) preserve
`count == length(history)`, but `IlmPhase.has_explain` bumps only the
counter and `IlmPhase.phase_stuck`'s advance resets only the counter, so
after those the counter diverges from the history. -/
theorem exception_counter_sync (a : AccState) (err : PyExc) (s name ph : String)
    (h : a.exceptions_raised = a.exceptions.length) :
    ((snapshot_check_body (.error err) a).2.1.exceptions_raised
        = (snapshot_check_body (.error err) a).2.1.exceptions.length)
    ∧ ((snapshot_check_body (.ok s) a).2.1.exceptions_raised
        = (snapshot_check_body (.ok s) a).2.1.exceptions.length)
    ∧ ((ilm_step_check_missing name a).2.exceptions_raised
        = (ilm_step_check_missing name a).2.exceptions.length)
    ∧ ((has_explain none a).2.exceptions_raised
        ≠ (has_explain none a).2.exceptions.length)
    ∧ (∀ (mx : Nat) (ps : IlmPhaseState), ps.advanced = false →
        mx ≤ ps.stuck_count →
        phase_stuck ph mx ps a
          = .ok (true, ⟨0, true⟩, { a with exceptions_raised := 0 })
        ∧ (a.exceptions ≠ [] →
            ({ a with exceptions_raised := 0 } : AccState).exceptions_raised
              ≠ ({ a with exceptions_raised := 0 } : AccState).exceptions.length))
    := by
  refine ⟨by simp [snapshot_check_body, add_exception, h], by simp [snapshot_check_body, h],
    by simp [ilm_step_check_missing, add_exception, h], by simp [has_explain, h], ?_⟩
  intro mx ps hadv hmx
  constructor
  · unfold phase_stuck
    rw [if_pos hmx, if_neg (by simp [hadv])]
  · intro hne
    have hlen : 0 < a.exceptions.length := List.length_pos.mpr hne
    show (0 : Nat) ≠ a.exceptions.length
    omega

/-- Witness for `exception_counter_sync` on a synchronized one-entry
accumulator. -/
theorem exception_counter_sync_witness :
    ((⟨1, [PyExc.valueErr "x"]⟩ : AccState).exceptions_raised
      = (⟨1, [PyExc.valueErr "x"]⟩ : AccState).exceptions.length)
    ∧ ((has_explain none ⟨1, [PyExc.valueErr "x"]⟩).2.exceptions_raised
        ≠ (has_explain none ⟨1, [PyExc.valueErr "x"]⟩).2.exceptions.length) :=
  ⟨by decide,
    (exception_counter_sync ⟨1, [PyExc.valueErr "x"]⟩ (.valueErr "y") "s" "n" "p"
      (by decide)).2.2.2.1⟩

/-- Claim C4: `check()` runs before the timeout comparison, so a `True`
result ends the wait successfully even when `elapsed` already reached the
timeout; and no terminating iteration sleeps — the success branch and the
timeout tail both return the sleep count unchanged (so a first-call success
returns with zero sleeps). -/
theorem check_before_timeout_no_sleep (cfg : WaitConfig) {σ : Type}
    (chk : Strategy σ) (hf : Option PyExc) (fuel : Nat) (st st' st'' : σ)
    (a a' a'' : AccState) (e : ℚ) (s : Nat) :
    (chk st a = .ret true st' a' →
      wait cfg chk hf (fuel + 1) st a e s = .success e s)
    ∧ (chk st a = .ret false st'' a'' → cfg.timeout ≠ -1 → cfg.timeout ≤ e →
      wait cfg chk hf (fuel + 1) st a e s = timeoutRaise cfg e hf s)
    ∧ (∀ (e' : ℚ) (hf' : Option PyExc), ∃ ex,
        timeoutRaise cfg e' hf' s = .raised ex s)
    ∧ (chk st a = .ret true st' a' →
      wait cfg chk hf (fuel + 1) st a 0 0 = .success 0 0) := by
  refine ⟨?_, ?_, ?_, ?_⟩
  · intro h
    simp [wait, h]
  · intro h h1 h2
    simp [wait, h, h1, h2]
  · intro e' hf'
    exact timeoutRaise_no_sleep cfg e' hf' s
  · intro h
    simp [wait, h]

/-- Witness for `check_before_timeout_no_sleep`: a condition true exactly at
the timeout boundary (`elapsed = timeout = 5`) still succeeds, with the
sleep count unchanged. -/
theorem check_before_timeout_no_sleep_witness :
    wait ⟨1, 5, 10, "w", false⟩ (fun (_ : Unit) a => .ret true () a) none 3
      () ⟨0, []⟩ 5 2 = .success 5 2 :=
  (check_before_timeout_no_sleep ⟨1, 5, 10, "w", false⟩
    (fun _ a => .ret true () a) none 2 () () () ⟨0, []⟩ ⟨0, []⟩ ⟨0, []⟩ 5 2).1 rfl

/-- Claim C2: with `max_exceptions = k`, `too_many_exceptions()` raises
`ExceptionCount` (message `'Check {waitstr} has failed, {count} exceptions
raised out of {k} allowed'`, carrying the count and the history) exactly
when the recorded count is at least `k`, and is a no-op below `k`; when that
signal escapes `check()`, `wait()` turns it into an `EsWaitFatal` carrying
the elapsed time and the full accumulated history, with the sleep count
unchanged (no further sleep). -/
theorem too_many_exceptions_escalation (cfg : WaitConfig) (a : AccState)
    {σ : Type} (chk : Strategy σ) (hf : Option PyExc) (fuel : Nat)
    (st st' : σ) (a' : AccState) (m : String) (c : Nat) (errs : List PyExc)
    (e : ℚ) (s : Nat) :
    (cfg.max_exceptions ≤ a.exceptions_raised →
      too_many_exceptions cfg a = some (.exceptionCount
        ("Check " ++ cfg.waitstr ++ " has failed, " ++ exception_count_msg cfg a)
        a.exceptions_raised a.exceptions))
    ∧ (a.exceptions_raised < cfg.max_exceptions →
      too_many_exceptions cfg a = none)
    ∧ (chk st a = .exc (.exceptionCount m c errs) st' a' →
      wait cfg chk hf (fuel + 1) st a e s
        = .raised (.esWaitFatal (exception_count_msg cfg a') e a'.exceptions) s)
    := by
  refine ⟨?_, ?_, ?_⟩
  · intro h
    simp [too_many_exceptions, h]
  · intro h
    unfold too_many_exceptions
    rw [if_neg (by omega)]
  · intro h
    simp [wait, h, PyExc.isExceptionCount]

/-- Witness for `too_many_exceptions_escalation`: three recorded exceptions
against `max_exceptions = 3`; the guard fires with the message of the
claim's example (`'3 exceptions raised out of 3 allowed'`) and `wait()`
raises the `EsWaitFatal` with the current elapsed time, the full history and
no further sleep. -/
theorem too_many_exceptions_escalation_witness :
    (too_many_exceptions ⟨1, 5, 3, "w", false⟩
        ⟨3, [PyExc.valueErr "a", PyExc.valueErr "b", PyExc.valueErr "c"]⟩
      = some (.exceptionCount
          ("Check " ++ "w" ++ " has failed, "
            ++ exception_count_msg ⟨1, 5, 3, "w", false⟩
                ⟨3, [PyExc.valueErr "a", PyExc.valueErr "b", PyExc.valueErr "c"]⟩)
          3 [PyExc.valueErr "a", PyExc.valueErr "b", PyExc.valueErr "c"]))
    ∧ wait ⟨1, 5, 3, "w", false⟩ (guardedCheck ⟨1, 5, 3, "w", false⟩) none 1 ()
        ⟨3, [PyExc.valueErr "a", PyExc.valueErr "b", PyExc.valueErr "c"]⟩ 7 4
      = .raised (.esWaitFatal
          (exception_count_msg ⟨1, 5, 3, "w", false⟩
            ⟨3, [PyExc.valueErr "a", PyExc.valueErr "b", PyExc.valueErr "c"]⟩)
          7 [PyExc.valueErr "a", PyExc.valueErr "b", PyExc.valueErr "c"]) 4
    ∧ exception_count_msg ⟨1, 5, 3, "w", false⟩
        ⟨3, [PyExc.valueErr "a", PyExc.valueErr "b", PyExc.valueErr "c"]⟩
      = "3 exceptions raised out of 3 allowed" :=
  ⟨(too_many_exceptions_escalation ⟨1, 5, 3, "w", false⟩
      ⟨3, [PyExc.valueErr "a", PyExc.valueErr "b", PyExc.valueErr "c"]⟩
      baseCheck none 0 () () ⟨0, []⟩ "" 0 [] 0 0).1 (by decide),
   (too_many_exceptions_escalation ⟨1, 5, 3, "w", false⟩
      ⟨3, [PyExc.valueErr "a", PyExc.valueErr "b", PyExc.valueErr "c"]⟩
      (guardedCheck ⟨1, 5, 3, "w", false⟩) none 0 () ()
      ⟨3, [PyExc.valueErr "a", PyExc.valueErr "b", PyExc.valueErr "c"]⟩
      ("Check " ++ "w" ++ " has failed, "
        ++ exception_count_msg ⟨1, 5, 3, "w", false⟩
            ⟨3, [PyExc.valueErr "a", PyExc.valueErr "b", PyExc.valueErr "c"]⟩)
      3 [PyExc.valueErr "a", PyExc.valueErr "b", PyExc.valueErr "c"] 7 4).2.2 rfl,
   rfl⟩

/-- Claim C6, counterexample: when `check()` raises the `NotFoundError` that
`IndexLifecycle.get_explain_data` re-raises for a renamed/missing index,
`wait()` does NOT wrap it — the raw `NotFoundError` propagates, not an
`EsWaitFatal`. -/
theorem fatal_notfound_cex :
    wait ⟨1, 5, 10, "w", false⟩ (raiseCheck (.notFoundErr "idx not found"))
      none 1 () ⟨0, []⟩ 0 0 = .raised (.notFoundErr "idx not found") 0
    ∧ PyExc.isEsWaitFatal (.notFoundErr "idx not found") = false :=
  ⟨rfl, rfl⟩

/-- Claim C6, amended: a fatal error of a type the supervisor recognizes
(the `EsWaitException` family, `IlmWaitError` included) raised inside
`check()` is wrapped into `EsWaitFatal` carrying the elapsed time, ending
the wait at once without another poll or sleep; but the renamed/not-found
case makes `get_explain_data` re-raise elasticsearch's `NotFoundError`
as-is, which `wait()` does not catch: it propagates unwrapped (still
aborting immediately). -/
theorem fatal_wrap_and_notfound (cfg : WaitConfig) {σ : Type}
    (chk : Strategy σ) (hf : Option PyExc) (fuel : Nat) (st st' : σ)
    (a a' : AccState) (err : PyExc) (el : ℚ) (s : Nat) (name m : String) :
    (chk st a = .exc err st' a' → err.isEsWaitExceptionCls = true →
      err.isExceptionCount = false →
      wait cfg chk hf (fuel + 1) st a el s
        = .raised (.esWaitFatal ("An error occurred: " ++ prettystr err) el
            a'.exceptions) s)
    ∧ (get_explain_data name (.notFound m) = .error (.notFoundErr m))
    ∧ (chk st a = .exc (.notFoundErr m) st' a' →
      wait cfg chk hf (fuel + 1) st a el s = .raised (.notFoundErr m) s) := by
  refine ⟨?_, rfl, ?_⟩
  · intro h h1 h2
    simp [wait, h, h1, h2]
  · intro h
    simp [wait, h, PyExc.isExceptionCount, PyExc.isEsWaitExceptionCls]

/-- Witness for `fatal_wrap_and_notfound`: an `IlmWaitError` from `check()`
is wrapped into `EsWaitFatal` with the elapsed time; the not-found API
outcome is re-raised as a bare `NotFoundError` and propagates unwrapped. -/
theorem fatal_wrap_and_notfound_witness :
    wait ⟨1, 5, 10, "w", false⟩ (raiseCheck (.ilmWaitError "stuck" [])) none 1
      () ⟨0, []⟩ 3 1
      = .raised (.esWaitFatal
          ("An error occurred: " ++ prettystr (.ilmWaitError "stuck" [])) 3 []) 1
    ∧ get_explain_data "idx" (.notFound "gone") = .error (.notFoundErr "gone")
    ∧ wait ⟨1, 5, 10, "w", false⟩ (raiseCheck (.notFoundErr "gone")) none 1 ()
        ⟨0, []⟩ 3 1 = .raised (.notFoundErr "gone") 1 :=
  ⟨(fatal_wrap_and_notfound ⟨1, 5, 10, "w", false⟩
      (raiseCheck (.ilmWaitError "stuck" [])) none 0 () () ⟨0, []⟩ ⟨0, []⟩
      (.ilmWaitError "stuck" []) 3 1 "idx" "gone").1 rfl rfl rfl,
   rfl,
   (fatal_wrap_and_notfound ⟨1, 5, 10, "w", false⟩
      (raiseCheck (.notFoundErr "gone")) none 0 () () ⟨0, []⟩ ⟨0, []⟩
      (.notFoundErr "gone") 3 1 "idx" "gone").2.2 rfl⟩

/-- Claim C3, counterexample: on the timeout path with diagnostics enabled,
a NON-`TransportError` raised by the health-report block (here a
`ValueError`) propagates out of `wait()` and REPLACES the timeout error —
the `except TransportError` guard does not cover it. -/
theorem timeout_health_mask_cex :
    wait ⟨1, 0, 10, "w", true⟩ baseCheck (some (.valueErr "boom")) 1 ()
      ⟨0, []⟩ 0 0 = .raised (.valueErr "boom") 0
    ∧ PyExc.isEsWaitTimeout (.valueErr "boom") = false :=
  ⟨rfl, rfl⟩

/-- Claim C3, amended: on the timeout path with diagnostics enabled, a
`TransportError` from the health-report block (and a block that completes)
is swallowed and the original `EsWaitTimeout` — with elapsed time and the
configured timeout — is still raised; any other exception escaping the
block replaces the timeout error. -/
theorem timeout_health_report_guard (cfg : WaitConfig) {σ : Type}
    (chk : Strategy σ) (fuel : Nat) (st st' : σ) (a a' : AccState) (e : ℚ)
    (s : Nat) (ex : PyExc) (hdr : cfg.do_health_report = true)
    (hchk : chk st a = .ret false st' a') (h1 : cfg.timeout ≠ -1)
    (h2 : cfg.timeout ≤ e) :
    (ex.isTransportError = true →
      wait cfg chk (some ex) (fuel + 1) st a e s
        = .raised (.esWaitTimeout (timeoutMsg cfg) e cfg.timeout) s)
    ∧ wait cfg chk none (fuel + 1) st a e s
        = .raised (.esWaitTimeout (timeoutMsg cfg) e cfg.timeout) s
    ∧ (ex.isTransportError = false →
      wait cfg chk (some ex) (fuel + 1) st a e s = .raised ex s) := by
  refine ⟨?_, ?_, ?_⟩
  · intro htr
    simp [wait, hchk, h1, h2, timeoutRaise, hdr, htr]
  · simp [wait, hchk, h1, h2, timeoutRaise, hdr]
  · intro htr
    simp [wait, hchk, h1, h2, timeoutRaise, hdr, htr]

/-- Witness for `timeout_health_report_guard` with a `TransportError` from
the health-report fetch: the timeout error survives. -/
theorem timeout_health_report_guard_witness :
    wait ⟨1, 0, 10, "w", true⟩ baseCheck (some (.transportErr "conn")) 1 ()
      ⟨0, []⟩ 0 0
      = .raised (.esWaitTimeout (timeoutMsg ⟨1, 0, 10, "w", true⟩) 0 0) 0 :=
  (timeout_health_report_guard ⟨1, 0, 10, "w", true⟩ baseCheck 0 () () ⟨0, []⟩
    ⟨0, []⟩ 0 0 (.transportErr "conn") rfl rfl (by norm_num) (by norm_num)).1 rfl

/-- Claim C5, counterexample: a negative timeout other than `-1` does NOT
disable the timeout branch — with `timeout = -2` the very first false check
trips `elapsed >= timeout` and `wait()` raises `EsWaitTimeout` at once. -/
theorem negative_timeout_cex :
    wait ⟨1, -2, 10, "w", false⟩ baseCheck none 1 () ⟨0, []⟩ 0 0
      = .raised (.esWaitTimeout (timeoutMsg ⟨1, -2, 10, "w", false⟩) 0 (-2)) 0
    ∧ isTimeoutResult
        (wait ⟨1, -2, 10, "w", false⟩ baseCheck none 1 () ⟨0, []⟩ 0 0) = true :=
  ⟨rfl, rfl⟩

/-- Claim C5, amended: only the sentinel `timeout = -1` disables the timeout
branch; then (for strategies that never themselves raise `EsWaitTimeout`,
which none does) no run of the wait loop ever produces a raised
`EsWaitTimeout`, so it can only end in success or a fatal raise. -/
theorem no_timeout_when_sentinel (cfg : WaitConfig) {σ : Type}
    (chk : Strategy σ) (hf : Option PyExc) (h1 : cfg.timeout = -1)
    (h2 : ∀ st a e st' a', chk st a = .exc e st' a' → e.isEsWaitTimeout = false) :
    ∀ (fuel : Nat) (st : σ) (a : AccState) (e : ℚ) (s : Nat),
      isTimeoutResult (wait cfg chk hf fuel st a e s) = false := by
  intro fuel
  induction fuel with
  | zero =>
    intro st a e s
    rfl
  | succ n ih =>
    intro st a e s
    unfold wait
    cases hc : chk st a with
    | exc ex st' a' =>
      cases hec : ex.isExceptionCount with
      | true => simp [hec, isTimeoutResult, PyExc.isEsWaitTimeout]
      | false =>
        cases hcls : ex.isEsWaitExceptionCls with
        | true => simp [hec, hcls, isTimeoutResult, PyExc.isEsWaitTimeout]
        | false => simp [hec, hcls, isTimeoutResult, h2 st a ex st' a' hc]
    | ret b st' a' =>
      cases b with
      | true => rfl
      | false =>
        simp only [h1]
        rw [if_neg (by norm_num)]
        exact ih st' a' (e + cfg.pause) (s + 1)

/-- Witness for `no_timeout_when_sentinel`: the default base waiter with
`timeout = -1` polled for three iterations never raises a timeout. -/
theorem no_timeout_when_sentinel_witness :
    isTimeoutResult
      (wait ⟨1, -1, 10, "w", false⟩ baseCheck none 3 () ⟨0, []⟩ 0 0) = false :=
  no_timeout_when_sentinel ⟨1, -1, 10, "w", false⟩ baseCheck none rfl
    (fun st a e st' a' h => by simp [baseCheck] at h) 3 () ⟨0, []⟩ 0 0

/-- Claim C1: with `timeout = T >= 0` and `pause = p > 0`, a condition that
never returns true and raises nothing makes `wait()` raise `EsWaitTimeout`
carrying the elapsed time and the configured timeout, with
elapsed in `[T, T + p)` (under the idealized clock where only
`sleep(pause)` advances time, so elapsed is `n * p` for the first `n` with
`n * p >= T`). -/
theorem wait_timeout_bound (cfg : WaitConfig) {σ : Type} (chk : Strategy σ)
    (hT : 0 ≤ cfg.timeout) (hp : 0 < cfg.pause)
    (hchk : ∀ st a, ∃ st' a', chk st a = .ret false st' a')
    (st : σ) (a : AccState) :
    ∃ n : Nat,
      wait cfg chk none (n + 1) st a 0 0
        = .raised (.esWaitTimeout (timeoutMsg cfg) ((n : ℚ) * cfg.pause)
            cfg.timeout) n
      ∧ cfg.timeout ≤ (n : ℚ) * cfg.pause
      ∧ (n : ℚ) * cfg.pause < cfg.timeout + cfg.pause := by
  have hT1 : cfg.timeout ≠ -1 := by
    intro h
    rw [h] at hT
    norm_num at hT
  set c : ℤ := ⌈cfg.timeout / cfg.pause⌉ with hc
  have hc0 : 0 ≤ c := Int.ceil_nonneg (div_nonneg hT hp.le)
  have hcast : ((c.toNat : ℚ)) = (c : ℚ) := by
    exact_mod_cast Int.toNat_of_nonneg hc0
  have hge : cfg.timeout ≤ (c.toNat : ℚ) * cfg.pause := by
    rw [hcast]
    exact (div_le_iff₀ hp).mp (Int.le_ceil _)
  have hlt : ∀ k : Nat, k < c.toNat → (k : ℚ) * cfg.pause < cfg.timeout := by
    intro k hk
    have hk' : (k : ℤ) < c := by omega
    have hkq : (k : ℚ) < cfg.timeout / cfg.pause := by
      have := Int.lt_ceil.mp (hc ▸ hk')
      exact_mod_cast this
    exact (lt_div_iff₀ hp).mp hkq
  refine ⟨c.toNat, ?_, hge, ?_⟩
  · have := wait_false_run cfg chk hchk hT1 c.toNat st a 0 0
      (fun k hk => by simpa using hlt k hk) (by simpa using hge)
    simpa using this
  · rcases Nat.eq_zero_or_pos c.toNat with h0 | hpos
    · rw [h0]
      push_cast
      linarith
    · obtain ⟨m, hm⟩ : ∃ m, c.toNat = m + 1 := ⟨c.toNat - 1, by omega⟩
      have hmp := hlt m (by omega)
      rw [hm]
      push_cast at hmp ⊢
      linarith

/-- Witness for `wait_timeout_bound` at `timeout = 2`, `pause = 1/2`: the
run raises `EsWaitTimeout` with elapsed in `[2, 2.5)`. -/
theorem wait_timeout_bound_witness :
    ∃ n : Nat,
      wait ⟨1/2, 2, 10, "w", false⟩ baseCheck none (n + 1) () ⟨0, []⟩ 0 0
        = .raised (.esWaitTimeout (timeoutMsg ⟨1/2, 2, 10, "w", false⟩)
            ((n : ℚ) * (1/2 : ℚ)) 2) n
      ∧ (2 : ℚ) ≤ (n : ℚ) * (1/2 : ℚ)
      ∧ (n : ℚ) * (1/2 : ℚ) < 2 + 1/2 :=
  wait_timeout_bound ⟨1/2, 2, 10, "w", false⟩ baseCheck (by norm_num)
    (by norm_num) (fun st a => ⟨(), a, rfl⟩) () ⟨0, []⟩

end EsWait
